import Mathlib

/-!
Verification development for the study_timer core: the schedule store
operations (config.rs), the active session tracker (schedule.rs) and the
notification daemon with its schedule matcher (scheduler.rs), shallowly
embedded in Lean. Machine floats (f32 hour counters) are modelled as
rationals, which is exact for every comparison and constant the core
applies to them; std HashMap tables are modelled as association lists
with the same lookup, overwrite-insert and entry-or-insert-push
operations; wall-clock instants are modelled as integer minute counts.
-/

namespace StudyTimer

/-- Subject record from config.rs. -/
structure Subject where
  target_hours : Rat
  completed_hours : Rat
deriving DecidableEq, Repr

/-- Recurring weekly slot record (config.rs StudySession): day name,
start time string and duration in minutes (u32, modelled as Nat). -/
structure StudySession where
  day : String
  start_time : String
  duration : Nat
deriving DecidableEq, Repr

/-- The schedule store (config.rs Config). The config_path field is a
filesystem location and plays no part in the claims, so it is omitted
from the model. -/
structure Config where
  subjects : List (String × Subject)
  schedules : List (String × List StudySession)
deriving DecidableEq, Repr

/-- Lookup in a string-keyed association list, modelling HashMap::get. -/
def lookupAL {α : Type} (k : String) : List (String × α) → Option α
  | [] => none
  | (k2, v) :: t => if k2 = k then some v else lookupAL k t

/-- Key-membership test, modelling HashMap::contains_key. -/
def containsKeyAL {α : Type} (k : String) (l : List (String × α)) : Bool :=
  (lookupAL k l).isSome

/-- Insert with overwrite, modelling HashMap::insert: the value stored at
an existing key is replaced, a missing key is added. -/
def insertAL {α : Type} (k : String) (v : α) : List (String × α) → List (String × α)
  | [] => [(k, v)]
  | (k2, v2) :: t => if k2 = k then (k, v) :: t else (k2, v2) :: insertAL k v t

/-- Append one slot to the list stored at a key, creating the key with a
singleton list when absent. Models
schedules.entry(subject).or_insert_with(Vec::new).push(session). -/
def pushSlot (k : String) (s : StudySession) :
    List (String × List StudySession) → List (String × List StudySession)
  | [] => [(k, [s])]
  | (k2, l) :: t => if k2 = k then (k2, l ++ [s]) :: t else (k2, l) :: pushSlot k s t

/-- Config-mutating operations of config.rs take self by mutable
reference and return a Result. They are modelled as returning the
updated store paired with the Result; an early error return leaves the
store component equal to the input. Config.add_subject rejects a
non-positive target and otherwise inserts the subject with zero
completed hours, overwriting any subject already stored at that name. -/
def add_subject (c : Config) (name : String) (target_hours : Rat) :
    Config × Except String Unit :=
  if target_hours ≤ 0 then
    (c, Except.error "you must set a target time for yoyr study")
  else
    ({ c with
        subjects := insertAL name
          { target_hours := target_hours, completed_hours := 0 } c.subjects },
     Except.ok ())

/-- The seven canonical day names accepted by Config.add_schedule. -/
def valid_days : List String :=
  ["Monday", "Tuesday", "Wednesday", "Thursday", "Friday", "Saturday", "Sunday"]

/-- Number of colon characters in a string, modelling
start_time.matches(..).count() from config.rs. -/
def countColons (s : String) : Nat :=
  (s.toList.filter (fun c => c == ':')).length

/-- Bitwise NOT on a usize value (64-bit), as the Rust operator writes
it: for n below 2 to the 64, the complement is 2 to the 64 minus 1 minus
n. The source guard in Config.add_schedule applies this operator to the
colon count before comparing with 1, because the negation binds to the
count rather than to the equality. -/
def usizeNot (n : Nat) : Nat := 2 ^ 64 - 1 - n

/-- Config.add_schedule from config.rs: rejects an unknown subject, then
a day outside valid_days, then applies the (ineffective) time-format
guard, and otherwise appends the slot to the subject's slot list. The
quoting of names inside the source error strings is elided. -/
def add_schedule (c : Config) (subject day start_time : String) (duration : Nat) :
    Config × Except String Unit :=
  if !(containsKeyAL subject c.subjects) then
    (c, Except.error ("subject " ++ subject ++ " not found.."))
  else if !(valid_days.contains day) then
    (c, Except.error ("incorrect day " ++ day ++ ", must be one of the valid days"))
  else if usizeNot (countColons start_time) = 1 then
    (c, Except.error "Time must be in HH:MM format")
  else
    ({ c with
        schedules := pushSlot subject
          { day := day, start_time := start_time, duration := duration } c.schedules },
     Except.ok ())

namespace schedule

/-- Active session record from schedule.rs (its own StudySession struct,
distinct from the config.rs slot). DateTime instants are modelled as
integer minute counts on a common clock. -/
structure StudySession where
  subject : String
  start_time : Int
  end_time : Int
deriving DecidableEq, Repr

/-- The active session tracker (schedule.rs Schedule). -/
structure Schedule where
  current_session : Option StudySession
deriving DecidableEq, Repr

/-- Schedule::new. -/
def new : Schedule := { current_session := none }

/-- Schedule::start_session: records start at the current instant and
end after duration_minutes, unconditionally replacing any session. The
current instant is the explicit now argument, since the source reads the
wall clock on every call. -/
def start_session (s : Schedule) (subject : String) (duration_minutes : Nat)
    (now : Int) : Schedule × Except String Unit :=
  ({ s with
      current_session := some
        { subject := subject, start_time := now,
          end_time := now + (duration_minutes : Int) } },
   Except.ok ())

/-- Schedule::end_session: Option::take returns the stored session, if
any, and always leaves the tracker empty. -/
def end_session (s : Schedule) : Schedule × Option StudySession :=
  ({ current_session := none }, s.current_session)

/-- Schedule::get_current_session. -/
def get_current_session (s : Schedule) : Option StudySession :=
  s.current_session

/-- Schedule::time_remaining: for an active session, the gap from now to
end_time when now is strictly earlier, and the zero duration otherwise;
none when no session is active. Recomputation from the wall clock on
each call is rendered by the explicit now argument. -/
def time_remaining (s : Schedule) (now : Int) : Option Int :=
  s.current_session.map (fun sess =>
    if now < sess.end_time then sess.end_time - now else 0)

end schedule

namespace scheduler

/-- One notification pushed through the sink: the title and message
passed to Notifier::notify by the daemon loop. -/
structure Alert where
  title : String
  message : String
deriving DecidableEq, Repr

/-- Character for a single decimal digit. -/
def digitChar (n : Nat) : Char := Char.ofNat (48 + n)

/-- Two-digit zero-padded decimal rendering, as the chrono format
specifiers H and M produce for in-range hour and minute values. -/
def pad2 (n : Nat) : String :=
  String.mk [digitChar (n / 10), digitChar (n % 10)]

/-- Rendering of now.format with the pattern H colon M used by the
daemon to build current_time. -/
def format_time (h m : Nat) : String := pad2 h ++ ":" ++ pad2 m

/-- Reads one or two leading decimal digits, as a chrono two-digit
numeric field does, returning the value and the unconsumed characters. -/
def takeDigits2 : List Char → Option (Nat × List Char)
  | [] => none
  | c1 :: rest =>
    if c1.isDigit then
      match rest with
      | c2 :: rest2 =>
        if c2.isDigit then
          some ((c1.toNat - 48) * 10 + (c2.toNat - 48), rest2)
        else
          some (c1.toNat - 48, rest)
      | [] => some (c1.toNat - 48, [])
    else none

/-- NaiveTime::parse_from_str with the pattern H colon M: hour digits, a
colon, minute digits, nothing further, with the hour below 24 and the
minute below 60. -/
def parseHM (s : String) : Option (Nat × Nat) :=
  match takeDigits2 s.toList with
  | none => none
  | some (h, rest) =>
    match rest with
    | ':' :: rest2 =>
      match takeDigits2 rest2 with
      | none => none
      | some (m, rest3) =>
        if rest3 = [] ∧ h ≤ 23 ∧ m ≤ 59 then some (h, m) else none
    | _ => none

/-- Notification built by the daemon when a slot starts this minute:
title Study Timer, message naming the subject and the slot duration. -/
def starting_now_alert (subject_name : String) (duration : Nat) : Alert :=
  { title := "Study Timer",
    message := "Time to study " ++ subject_name ++ " for " ++ toString duration ++
      " minutes" }

/-- Notification built by the daemon when a slot is judged five minutes
away: title study timer (lowercase in the source). -/
def starting_soon_alert (subject_name : String) : Alert :=
  { title := "study timer",
    message := subject_name ++ " study session starts in 5 minutes" }

/-- First if statement of the run_daemon loop body for one slot: the
starting-now notification fires on string equality of the slot day with
the captured day name and of the slot start time with the captured
minute formatted as two digits, colon, two digits. -/
def now_alerts (subject_name : String) (session : StudySession)
    (current_day : String) (nowH nowM : Nat) : List Alert :=
  if session.day = current_day ∧ session.start_time = format_time nowH nowM then
    [starting_now_alert subject_name session.duration]
  else []

/-- Second if statement of the run_daemon loop body for one slot: when
the day matches and the slot time parses, the signed minute difference
plus 60 is reduced with the Rust remainder (truncated, Int.tmod) by 60
and compared with 5. The signed_duration_since value in whole minutes is
exactly the difference of the minute-of-day counts, both instants being
whole minutes. -/
def soon_alerts (subject_name : String) (session : StudySession)
    (current_day : String) (nowH nowM : Nat) : List Alert :=
  if session.day = current_day then
    match parseHM session.start_time with
    | some (sh, sm) =>
      if (((sh * 60 + sm : Int) - (nowH * 60 + nowM : Int)) + 60).tmod 60 = 5 then
        [starting_soon_alert subject_name]
      else []
    | none => []
  else []

/-- Loop body of run_daemon for one slot of one subject at the captured
local day and time: the two checks run in sequence, independently. -/
def slot_alerts (subject_name : String) (session : StudySession)
    (current_day : String) (nowH nowM : Nat) : List Alert :=
  now_alerts subject_name session current_day nowH nowM ++
    soon_alerts subject_name session current_day nowH nowM

/-- Inner for loop of run_daemon over one subject's slot list. -/
def sessions_alerts (subject_name : String) (sessions : List StudySession)
    (current_day : String) (nowH nowM : Nat) : List Alert :=
  match sessions with
  | [] => []
  | s :: t => slot_alerts subject_name s current_day nowH nowM ++
      sessions_alerts subject_name t current_day nowH nowM

/-- Outer for loop of run_daemon: all notifications pushed in one tick,
given the schedule snapshot and the captured local day, hour, minute. -/
def tick_alerts (schedules : List (String × List StudySession))
    (current_day : String) (nowH nowM : Nat) : List Alert :=
  match schedules with
  | [] => []
  | (n, ss) :: t => sessions_alerts n ss current_day nowH nowM ++
      tick_alerts t current_day nowH nowM

/-- One observation made by the daemon loop at the top of an iteration:
the value read from the shared running flag, and the local day and time
the iteration would capture. -/
structure TickObs where
  running : Bool
  day : String
  hour : Nat
  minute : Nat
deriving DecidableEq, Repr

/-- The while loop of run_daemon over a trace of flag observations: an
iteration whose flag read is true emits its tick notifications and
continues after the sleep; a false read exits the loop at once, emitting
nothing further. -/
def run_daemon (schedules : List (String × List StudySession)) :
    List TickObs → List Alert
  | [] => []
  | o :: rest =>
    if o.running then
      tick_alerts schedules o.day o.hour o.minute ++ run_daemon schedules rest
    else []

/-- Scheduler::stop_daemon stores false into the shared running flag
whatever its previous value. -/
def stop_daemon (_previous : Bool) : Bool := false

end scheduler

/-- JSON values, as far as the derived Serialize and Deserialize
implementations for Config need them. Numbers carry an exact rational
for the f32 fields and a natural for the u32 field; serde_json renders
f32 with round-trip precision, so the rational model is faithful. -/
inductive Json where
  | str : String → Json
  | num : Rat → Json
  | unum : Nat → Json
  | arr : List Json → Json
  | obj : List (String × Json) → Json

/-- Derived serialization of a Subject: an object with the two hour
fields in declaration order. -/
def encodeSubject (s : Subject) : Json :=
  Json.obj [("target_hours", Json.num s.target_hours),
            ("completed_hours", Json.num s.completed_hours)]

/-- Derived deserialization of a Subject. -/
def decodeSubject : Json → Option Subject
  | Json.obj [("target_hours", Json.num t), ("completed_hours", Json.num c)] =>
    some { target_hours := t, completed_hours := c }
  | _ => none

/-- Derived serialization of a slot record. -/
def encodeSession (s : StudySession) : Json :=
  Json.obj [("day", Json.str s.day), ("start_time", Json.str s.start_time),
            ("duration", Json.unum s.duration)]

/-- Derived deserialization of a slot record. -/
def decodeSession : Json → Option StudySession
  | Json.obj [("day", Json.str d), ("start_time", Json.str st),
              ("duration", Json.unum n)] =>
    some { day := d, start_time := st, duration := n }
  | _ => none

/-- Deserialization of a slot array, element by element in order. -/
def decodeSessionList : List Json → Option (List StudySession)
  | [] => some []
  | j :: t =>
    match decodeSession j, decodeSessionList t with
    | some s, some rest => some (s :: rest)
    | _, _ => none

/-- Serialization of the subjects table as a JSON object. -/
def encodeSubjects : List (String × Subject) → List (String × Json) :=
  List.map (fun p => (p.1, encodeSubject p.2))

/-- Deserialization of the subjects table, entry by entry. -/
def decodeSubjects : List (String × Json) → Option (List (String × Subject))
  | [] => some []
  | (k, j) :: t =>
    match decodeSubject j, decodeSubjects t with
    | some s, some rest => some ((k, s) :: rest)
    | _, _ => none

/-- Serialization of the schedules table: each subject maps to the array
of its slots in stored order. -/
def encodeSchedules : List (String × List StudySession) → List (String × Json) :=
  List.map (fun p => (p.1, Json.arr (p.2.map encodeSession)))

/-- Deserialization of the schedules table. -/
def decodeSchedules : List (String × Json) → Option (List (String × List StudySession))
  | [] => some []
  | (k, Json.arr js) :: t =>
    match decodeSessionList js, decodeSchedules t with
    | some l, some rest => some ((k, l) :: rest)
    | _, _ => none
  | _ => none

/-- Modelled from the spec: the persisted layout is a record holding the
subjects table and the schedules table (the serializer itself is the
serde library outside this repository; the derived field layout is read
off the struct declarations in config.rs, config_path elided as a
filesystem path). Config::save renders the store into that layout. -/
def save (c : Config) : Json :=
  Json.obj [("subjects", Json.obj (encodeSubjects c.subjects)),
            ("schedules", Json.obj (encodeSchedules c.schedules))]

/-- Modelled from the spec: Config::load parses the saved document back
through the derived Deserialize implementation, failing on any shape
mismatch; the config_path overwrite after parsing is elided with the
field. -/
def load : Json → Option Config
  | Json.obj [("subjects", Json.obj subj), ("schedules", Json.obj sch)] =>
    match decodeSubjects subj, decodeSchedules sch with
    | some s, some sch2 => some { subjects := s, schedules := sch2 }
    | _, _ => none
  | _ => none

/-- Lookup after an overwrite-insert: the inserted key now stores the
new value, every other key is untouched. -/
theorem lookupAL_insertAL {α : Type} (k n : String) (v : α) (l : List (String × α)) :
    lookupAL k (insertAL n v l) = if n = k then some v else lookupAL k l := by
  induction l with
  | nil => simp [insertAL, lookupAL]
  | cons hd t ih =>
    obtain ⟨k2, v2⟩ := hd
    by_cases h2 : k2 = n
    · subst h2
      by_cases h3 : k2 = k <;> simp [insertAL, lookupAL, h3]
    · by_cases h3 : k2 = k
      · subst h3
        have hnk : ¬ n = k2 := fun he => h2 he.symm
        simp [insertAL, lookupAL, h2, hnk]
      · simp [insertAL, lookupAL, h2, h3, ih]

/-- C7: add_subject reports the validation error and leaves the store
unchanged exactly when the target is non-positive; on a positive target
it succeeds and the subject is stored with the given target and zero
completed hours. -/
theorem add_subject_spec (c : Config) (n : String) (t : Rat) :
    (((add_subject c n t).2 =
          Except.error "you must set a target time for yoyr study" ∧
        (add_subject c n t).1 = c) ↔ t ≤ 0) ∧
    (0 < t → (add_subject c n t).2 = Except.ok () ∧
      lookupAL n ((add_subject c n t).1).subjects =
        some { target_hours := t, completed_hours := 0 }) := by
  by_cases h : t ≤ 0
  · constructor
    · simp [add_subject, h]
    · intro hpos
      exact absurd h (not_le.mpr hpos)
  · constructor
    · simp [add_subject, h]
    · intro _
      simp [add_subject, h, lookupAL_insertAL]

/-- Witness for add_subject_spec at the empty store. -/
theorem add_subject_spec_witness :
    (0 : Rat) < 2 ∧
      ((add_subject { subjects := [], schedules := [] } "A" 2).2 = Except.ok () ∧
        lookupAL "A"
            ((add_subject { subjects := [], schedules := [] } "A" 2).1).subjects =
          some { target_hours := 2, completed_hours := 0 }) :=
  ⟨by norm_num,
   (add_subject_spec { subjects := [], schedules := [] } "A" 2).2 (by norm_num)⟩

/-- C8: add_schedule against a subject missing from the subjects table
reports the unknown-subject error and leaves the store unchanged,
whatever the day, start time and duration arguments are. -/
theorem add_schedule_unknown_subject (c : Config) (subject day st : String)
    (dur : Nat) (h : lookupAL subject c.subjects = none) :
    (add_schedule c subject day st dur).2 =
        Except.error ("subject " ++ subject ++ " not found..") ∧
    (add_schedule c subject day st dur).1 = c := by
  have hc : containsKeyAL subject c.subjects = false := by
    simp [containsKeyAL, h]
  simp [add_schedule, hc]

/-- Witness for add_schedule_unknown_subject at the empty store. -/
theorem add_schedule_unknown_subject_witness :
    lookupAL "BE" ({ subjects := [], schedules := [] } : Config).subjects = none ∧
      ((add_schedule { subjects := [], schedules := [] } "BE" "ijumaa" "10:00" 30).2 =
          Except.error ("subject " ++ "BE" ++ " not found..") ∧
        (add_schedule { subjects := [], schedules := [] } "BE" "ijumaa" "10:00" 30).1 =
          { subjects := [], schedules := [] }) :=
  ⟨rfl, add_schedule_unknown_subject { subjects := [], schedules := [] }
    "BE" "ijumaa" "10:00" 30 rfl⟩

/-- C9: end_session on an empty tracker returns none; on an active
session it returns that session, empties the tracker, and a second call
straight after returns none. -/
theorem end_session_spec (s : schedule.Schedule) :
    (s.current_session = none → (schedule.end_session s).2 = none) ∧
    (∀ sess, s.current_session = some sess →
      (schedule.end_session s).2 = some sess ∧
      ((schedule.end_session s).1).current_session = none ∧
      (schedule.end_session ((schedule.end_session s).1)).2 = none) := by
  constructor
  · intro h
    simp [schedule.end_session, h]
  · intro sess h
    simp [schedule.end_session, h]

/-- Witness for end_session_spec on a tracker holding one session. -/
theorem end_session_spec_witness :
    ({ current_session := some { subject := "Rs", start_time := 0, end_time := 60 } } :
        schedule.Schedule).current_session =
      some { subject := "Rs", start_time := 0, end_time := 60 } ∧
      ((schedule.end_session
            { current_session :=
                some { subject := "Rs", start_time := 0, end_time := 60 } }).2 =
          some { subject := "Rs", start_time := 0, end_time := 60 } ∧
        ((schedule.end_session
              { current_session :=
                  some { subject := "Rs", start_time := 0, end_time := 60 } }).1).current_session =
          none ∧
        (schedule.end_session
            ((schedule.end_session
                { current_session :=
                    some { subject := "Rs", start_time := 0, end_time := 60 } }).1)).2 =
          none) :=
  ⟨rfl,
   (end_session_spec
        { current_session := some { subject := "Rs", start_time := 0, end_time := 60 } }).2
     { subject := "Rs", start_time := 0, end_time := 60 } rfl⟩

/-- C6: with an active session, time_remaining returns the gap to
end_time when now is strictly earlier and the zero duration otherwise,
and any value it returns is non-negative; the now argument makes every
call a fresh function of the wall clock. -/
theorem time_remaining_spec (s : schedule.Schedule) (sess : schedule.StudySession)
    (now : Int) (h : s.current_session = some sess) :
    schedule.time_remaining s now =
        some (if now < sess.end_time then sess.end_time - now else 0) ∧
    ∀ r, schedule.time_remaining s now = some r → 0 ≤ r := by
  constructor
  · simp [schedule.time_remaining, h]
  · intro r hr
    simp [schedule.time_remaining, h] at hr
    subst hr
    split
    · omega
    · omega

/-- Witness for time_remaining_spec five minutes before the end of a
session. -/
theorem time_remaining_spec_witness :
    ({ current_session := some { subject := "Rs", start_time := 0, end_time := 60 } } :
        schedule.Schedule).current_session =
      some { subject := "Rs", start_time := 0, end_time := 60 } ∧
      schedule.time_remaining
          { current_session := some { subject := "Rs", start_time := 0, end_time := 60 } }
          55 =
        some (if (55 : Int) < 60 then 60 - 55 else 0) :=
  ⟨rfl,
   (time_remaining_spec
        { current_session := some { subject := "Rs", start_time := 0, end_time := 60 } }
        { subject := "Rs", start_time := 0, end_time := 60 } 55 rfl).1⟩

/-- C3 counterexample: re-adding subject Math, stored with five
completed hours, overwrites the record and resets completed_hours to
zero, a strict decrease from five. -/
theorem add_subject_resets_completed_hours :
    lookupAL "Math"
        ({ subjects := [("Math", { target_hours := 10, completed_hours := 5 })],
            schedules := [] } : Config).subjects =
      some { target_hours := 10, completed_hours := 5 } ∧
    lookupAL "Math"
        ((add_subject
            { subjects := [("Math", { target_hours := 10, completed_hours := 5 })],
              schedules := [] } "Math" 10).1).subjects =
      some { target_hours := 10, completed_hours := 0 } ∧
    ((0 : Rat) < 5) := by
  refine ⟨rfl, ?_, by norm_num⟩
  norm_num [add_subject, lookupAL_insertAL]

/-- C3 amended: add_schedule never changes the subjects table, and
add_subject with a name not already present never decreases the
completed_hours recorded for any stored subject; add_subject on a name
already present replaces that record with zero completed hours. -/
theorem completed_hours_not_decreased_amended (c : Config) (n day st : String)
    (dur : Nat) (t : Rat) (k : String) (v : Subject)
    (hk : lookupAL k c.subjects = some v) :
    ((add_schedule c n day st dur).1).subjects = c.subjects ∧
    (lookupAL n c.subjects = none →
      ∃ v2, lookupAL k ((add_subject c n t).1).subjects = some v2 ∧
        v.completed_hours ≤ v2.completed_hours) := by
  constructor
  · unfold add_schedule
    repeat' split
    all_goals rfl
  · intro hn
    have hnk : ¬ n = k := by
      intro he
      rw [he, hk] at hn
      cases hn
    by_cases ht : t ≤ 0
    · exact ⟨v, by simp [add_subject, ht, hk], le_refl _⟩
    · exact ⟨v, by simp [add_subject, ht, lookupAL_insertAL, hnk, hk], le_refl _⟩

/-- Witness for completed_hours_not_decreased_amended: subject B stored,
fresh name A added. -/
theorem completed_hours_not_decreased_amended_witness :
    lookupAL "B"
        ({ subjects := [("B", { target_hours := 4, completed_hours := 3 })],
            schedules := [] } : Config).subjects =
      some { target_hours := 4, completed_hours := 3 } ∧
    ((add_schedule
          { subjects := [("B", { target_hours := 4, completed_hours := 3 })],
            schedules := [] } "B" "Monday" "09:00" 60).1).subjects =
      ({ subjects := [("B", { target_hours := 4, completed_hours := 3 })],
          schedules := [] } : Config).subjects ∧
    (lookupAL "A"
          ({ subjects := [("B", { target_hours := 4, completed_hours := 3 })],
              schedules := [] } : Config).subjects = none →
      ∃ v2, lookupAL "B"
            ((add_subject
                { subjects := [("B", { target_hours := 4, completed_hours := 3 })],
                  schedules := [] } "A" 7).1).subjects = some v2 ∧
          ({ target_hours := 4, completed_hours := 3 } : Subject).completed_hours ≤
            v2.completed_hours) :=
  ⟨rfl,
   (completed_hours_not_decreased_amended
       { subjects := [("B", { target_hours := 4, completed_hours := 3 })],
         schedules := [] } "A" "Monday" "09:00" 60 7 "B"
       { target_hours := 4, completed_hours := 3 } rfl).1,
   fun _ =>
     (completed_hours_not_decreased_amended
         { subjects := [("B", { target_hours := 4, completed_hours := 3 })],
           schedules := [] } "A" "Monday" "09:00" 60 7 "B"
         { target_hours := 4, completed_hours := 3 } rfl).2 rfl⟩

/-- C2 evaluation: with subject OS present, add_schedule accepts the
malformed start times 1000 and 10:00:00 and appends the slot, because
the guard compares the bitwise complement of the colon count with 1 and
therefore never fires; the repository test test_invalid_time_format
expects both calls to be rejected. -/
theorem add_schedule_accepts_malformed_time :
    (add_schedule
        { subjects := [("OS", { target_hours := 10, completed_hours := 0 })],
          schedules := [] } "OS" "Wednesday" "1000" 60).2 = Except.ok () ∧
    lookupAL "OS"
        ((add_schedule
            { subjects := [("OS", { target_hours := 10, completed_hours := 0 })],
              schedules := [] } "OS" "Wednesday" "1000" 60).1).schedules =
      some [{ day := "Wednesday", start_time := "1000", duration := 60 }] ∧
    (add_schedule
        { subjects := [("OS", { target_hours := 10, completed_hours := 0 })],
          schedules := [] } "OS" "Wednesday" "10:00:00" 60).2 = Except.ok () := by
  refine ⟨rfl, rfl, rfl⟩

/-- C1 evaluation: for the single slot Monday 09:00, one tick of the
daemon emits the starting-soon notification at Monday 08:55 as the claim
states, but also at Monday 09:55, because the minute difference is
wrapped with remainder 60 (minute of hour) rather than over the 1440
minutes of the day. -/
theorem starting_soon_fires_beyond_0855 :
    scheduler.tick_alerts
        [("Math", [{ day := "Monday", start_time := "09:00", duration := 60 }])]
        "Monday" 8 55 = [scheduler.starting_soon_alert "Math"] ∧
    scheduler.tick_alerts
        [("Math", [{ day := "Monday", start_time := "09:00", duration := 60 }])]
        "Monday" 9 55 = [scheduler.starting_soon_alert "Math"] := by
  refine ⟨rfl, rfl⟩

/-- Every notification produced by the starting-soon check of one slot
is the starting-soon notification for that subject. -/
theorem mem_soon_alerts_eq (x : scheduler.Alert) (subject_name : String)
    (session : StudySession) (current_day : String) (nowH nowM : Nat)
    (h : x ∈ scheduler.soon_alerts subject_name session current_day nowH nowM) :
    x = scheduler.starting_soon_alert subject_name := by
  unfold scheduler.soon_alerts at h
  split at h
  · split at h
    · split at h
      · simpa using h
      · simp at h
    · simp at h
  · simp at h

/-- C4: the starting-now notification for a slot is emitted by the loop
body for that slot exactly when the slot day equals the captured day
name and the slot start time string equals the captured minute rendered
in the two-digit colon format. -/
theorem starting_now_iff (subject_name : String) (session : StudySession)
    (current_day : String) (nowH nowM : Nat) (_hh : nowH < 24) (_hm : nowM < 60) :
    scheduler.starting_now_alert subject_name session.duration ∈
        scheduler.slot_alerts subject_name session current_day nowH nowM ↔
      (session.day = current_day ∧
        session.start_time = scheduler.format_time nowH nowM) := by
  unfold scheduler.slot_alerts
  rw [List.mem_append]
  constructor
  · rintro (h1 | h2)
    · unfold scheduler.now_alerts at h1
      split at h1
      · assumption
      · simp at h1
    · exfalso
      have he := mem_soon_alerts_eq _ subject_name session current_day nowH nowM h2
      simp [scheduler.starting_now_alert, scheduler.starting_soon_alert] at he
  · intro hc
    left
    unfold scheduler.now_alerts
    rw [if_pos hc]
    exact List.mem_singleton.mpr rfl

/-- Witness for starting_now_iff: the Monday 09:00 slot at Monday 09:00
emits its starting-now notification. -/
theorem starting_now_iff_witness :
    (9 : Nat) < 24 ∧ (0 : Nat) < 60 ∧
      scheduler.starting_now_alert "Math" 60 ∈
        scheduler.slot_alerts "Math"
          { day := "Monday", start_time := "09:00", duration := 60 } "Monday" 9 0 :=
  ⟨by norm_num, by norm_num,
   (starting_now_iff "Math" { day := "Monday", start_time := "09:00", duration := 60 }
       "Monday" 9 0 (by norm_num) (by norm_num)).mpr ⟨rfl, by decide⟩⟩

/-- Daemon loop output over a trace whose reads are true up to a false
read: the output is that of the true prefix, whatever follows the false
read. -/
theorem run_daemon_append_stop (schedules : List (String × List StudySession))
    (pre post : List scheduler.TickObs) (o : scheduler.TickObs)
    (hpre : ∀ x ∈ pre, x.running = true) (hf : o.running = false) :
    scheduler.run_daemon schedules (pre ++ o :: post) =
      scheduler.run_daemon schedules pre := by
  induction pre with
  | nil => simp [scheduler.run_daemon, hf]
  | cons x t ih =>
    have hx : x.running = true := hpre x (List.mem_cons_self x t)
    have ht : ∀ y ∈ t, y.running = true := fun y hy =>
      hpre y (List.mem_cons_of_mem x hy)
    simp [scheduler.run_daemon, hx, ih ht]

/-- C5: after the stop command has stored false into the running flag,
the loop iteration that observes the false value terminates the loop:
the notifications sent over the whole trace are exactly those of the
iterations before the false observation, and they do not depend on
anything after it. -/
theorem run_daemon_stops_after_flag_false (schedules : List (String × List StudySession))
    (pre post : List scheduler.TickObs) (o : scheduler.TickObs)
    (hpre : ∀ x ∈ pre, x.running = true)
    (ho : o.running = scheduler.stop_daemon true) :
    scheduler.run_daemon schedules (pre ++ o :: post) =
      scheduler.run_daemon schedules pre ∧
    scheduler.run_daemon schedules (pre ++ o :: post) =
      scheduler.run_daemon schedules (pre ++ [o]) := by
  have hf : o.running = false := ho
  constructor
  · exact run_daemon_append_stop schedules pre post o hpre hf
  · rw [run_daemon_append_stop schedules pre post o hpre hf,
      run_daemon_append_stop schedules pre [] o hpre hf]

/-- Witness for run_daemon_stops_after_flag_false: one true tick, then a
false read, then a tick that would have fired an alert but is never
reached. -/
theorem run_daemon_stops_after_flag_false_witness :
    (∀ x ∈ [({ running := true, day := "Monday", hour := 9, minute := 0 } :
        scheduler.TickObs)], x.running = true) ∧
    ({ running := false, day := "Monday", hour := 8, minute := 55 } :
        scheduler.TickObs).running = scheduler.stop_daemon true ∧
    scheduler.run_daemon
        [("Math", [{ day := "Monday", start_time := "09:00", duration := 60 }])]
        ([{ running := true, day := "Monday", hour := 9, minute := 0 }] ++
          { running := false, day := "Monday", hour := 8, minute := 55 } ::
            [{ running := true, day := "Monday", hour := 8, minute := 55 }]) =
      scheduler.run_daemon
        [("Math", [{ day := "Monday", start_time := "09:00", duration := 60 }])]
        [{ running := true, day := "Monday", hour := 9, minute := 0 }] :=
  ⟨by decide, rfl,
   (run_daemon_stops_after_flag_false
       [("Math", [{ day := "Monday", start_time := "09:00", duration := 60 }])]
       [{ running := true, day := "Monday", hour := 9, minute := 0 }]
       [{ running := true, day := "Monday", hour := 8, minute := 55 }]
       { running := false, day := "Monday", hour := 8, minute := 55 }
       (by decide) rfl).1⟩

/-- Deserialization undoes serialization on one subject record. -/
theorem decodeSubject_encodeSubject (s : Subject) :
    decodeSubject (encodeSubject s) = some s := rfl

/-- Deserialization undoes serialization on one slot record. -/
theorem decodeSession_encodeSession (s : StudySession) :
    decodeSession (encodeSession s) = some s := rfl

/-- Deserialization undoes serialization on a slot array. -/
theorem decodeSessionList_map (l : List StudySession) :
    decodeSessionList (l.map encodeSession) = some l := by
  induction l with
  | nil => rfl
  | cons hd t ih =>
    simp [List.map, decodeSessionList, decodeSession_encodeSession, ih]

/-- Deserialization undoes serialization on the subjects table. -/
theorem decodeSubjects_encodeSubjects (l : List (String × Subject)) :
    decodeSubjects (encodeSubjects l) = some l := by
  induction l with
  | nil => rfl
  | cons hd t ih =>
    obtain ⟨k, v⟩ := hd
    unfold encodeSubjects at ih ⊢
    simp [List.map, decodeSubjects, decodeSubject_encodeSubject, ih]

/-- Deserialization undoes serialization on the schedules table. -/
theorem decodeSchedules_encodeSchedules (l : List (String × List StudySession)) :
    decodeSchedules (encodeSchedules l) = some l := by
  induction l with
  | nil => rfl
  | cons hd t ih =>
    obtain ⟨k, v⟩ := hd
    unfold encodeSchedules at ih ⊢
    simp [List.map, decodeSchedules, decodeSessionList_map, ih]

/-- C10: reloading a saved store reproduces the subjects and schedules
tables exactly, every field and the order of every slot list included. -/
theorem save_load_round_trip (c : Config) : load (save c) = some c := by
  obtain ⟨s, sch⟩ := c
  simp [save, load, decodeSubjects_encodeSubjects, decodeSchedules_encodeSchedules]

end StudyTimer
